import Mathlib

/-!
# Verification of the CRM prepared-layer ETL

A shallow embedding, in Lean 4, of the data-preparation code of the
repository (the `prepared_layers` package, its database helpers, and the
unit tests shipped with it), together with theorems settling the spec's
claims about it.

Conventions of the embedding:

* SQL `DECIMAL` money amounts and the floating-point arithmetic of the
  cost formulas are modelled over `ℚ` (all the amounts involved are exact
  decimal fractions, so `ℚ` reproduces them exactly).
* A database table is a `List` of rows; the `UPDATE ... FROM` statements
  of `update_crm_balances_from_cdr` become row-wise maps, and the
  `INSERT ... ON CONFLICT (account_id, device_id) DO UPDATE` of
  `process_crm_data_1` becomes a row-sequential upsert fold.
* The aggregated CDR inputs (`cdr_summary` / `voice_summary` subqueries,
  grouped by msisdn) are modelled as functions `String → Option ℤ`:
  `some v` when the msisdn has rows in the underlying CDR table, with `v`
  the summed measure, `none` when it has none.
* Components of the repository that are exercised by its tests but whose
  defining module is not part of the source tree (the `hvs` streaming
  consumer, the `cdr.py` sessionizer) are modelled from the spec; each
  such definition carries a doc comment saying so.
-/

namespace DataEng

/-! ## Pricing constants (prepared_layers/layers/crm.py, lines 12-14) -/

/-- Constant `DATA_COST_PER_GB = 49  # ZAR per GB` from crm.py. -/
def DATA_COST_PER_GB : ℚ := 49

/-- Constant `VOICE_COST_PER_MIN = 1  # ZAR per minute` from crm.py. -/
def VOICE_COST_PER_MIN : ℚ := 1

/-! ## Cost model

The batch balance path (crm.py, `update_crm_balances_from_cdr`,
lines 178-200) computes
`data_cost_zar = total_bytes * DATA_COST_PER_GB / 1073741824.0` and
`voice_cost_zar = total_seconds * VOICE_COST_PER_MIN / 60.0`. -/

/-- Data cost in ZAR as computed by the SQL `UPDATE` of
`update_crm_balances_from_cdr` (crm.py line 182). -/
def data_cost_zar (totalBytes : ℚ) : ℚ :=
  totalBytes * DATA_COST_PER_GB / 1073741824

/-- Voice cost in ZAR as computed by the SQL `UPDATE` of
`update_crm_balances_from_cdr` (crm.py line 184). -/
def voice_cost_zar (totalSeconds : ℚ) : ℚ :=
  totalSeconds * VOICE_COST_PER_MIN / 60

/-- Modelled from the spec: the streaming cost helper `data_cost_wak` of
`hvs/consumer.py`, whose module is not in the source tree (only its unit
test `tests/test_hvs.py` is). Spec 4.3: `data_cost(bytes) = bytes / 2^30
* price_per_gb`, and the secondary-currency conversion multiplies the
base-currency cost by a rate factor (`WAK_PER_ZAR`, here the parameter
`wakPerZar`) and rounds to the nearest integer minor unit. -/
def data_cost_wak (wakPerZar : ℚ) (bytes : ℚ) : ℤ :=
  round (bytes / 2 ^ 30 * DATA_COST_PER_GB * wakPerZar)

/-- Modelled from the spec: the streaming cost helper `voice_cost_wak` of
`hvs/consumer.py` (module not in the source tree). Spec 4.3:
`voice_cost(seconds) = seconds / 60 * price_per_minute`, converted by the
rate factor and rounded to the nearest integer minor unit. -/
def voice_cost_wak (wakPerZar : ℚ) (seconds : ℚ) : ℤ :=
  round (seconds / 60 * VOICE_COST_PER_MIN * wakPerZar)

/-! ## The unit tests of the streaming helpers (tests/test_hvs.py)

`test_data_cost_wak` asserts
`data_cost_wak(1000000000) == int(round(49.0 * WAK_PER_ZAR))`, and
`test_voice_cost_wak` asserts
`voice_cost_wak(60) == int(round(1 * WAK_PER_ZAR))`. Each is stated as a
predicate over a candidate helper and the (unknown) `WAK_PER_ZAR` rate. -/

/-- The assertion of `tests/test_hvs.py::test_data_cost_wak`: on input
1,000,000,000 bytes the helper returns `round (49 * WAK_PER_ZAR)`. -/
def test_data_cost_wak (dcw : ℚ → ℤ) (wakPerZar : ℚ) : Prop :=
  dcw 1000000000 = round (49 * wakPerZar)

/-- The assertion of `tests/test_hvs.py::test_voice_cost_wak`: on input
60 seconds the helper returns `round (1 * WAK_PER_ZAR)`. -/
def test_voice_cost_wak (vcw : ℚ → ℤ) (wakPerZar : ℚ) : Prop :=
  vcw 60 = round (1 * wakPerZar)

/-! ## The flattened CRM balance table (prepared_layers/layers/crm.py)

`process_crm_data_1` reads one row per (account, device) pair from the
production CRM database, adds zero-initialised cost placeholder columns,
drops and recreates `prepared_layers.crm_flattened_balance`, and inserts
the rows with `ON CONFLICT (account_id, device_id) DO UPDATE` replacing
the descriptive columns (and only those). -/

/-- One row of the production-side CRM query of `process_crm_data_1`
(crm.py lines 35-56): account, device and address columns plus the
`last_modified` timestamp (modelled as `ℕ`). -/
structure CrmRecord where
  account_id : ℕ
  device_id : ℕ
  owner_name : String
  email : String
  msisdn : String
  device_name : String
  device_type : String
  device_os : String
  street_address : String
  city : String
  state : String
  postal_code : String
  country : String
  last_modified : ℕ
deriving DecidableEq, Repr

/-- One row of `prepared_layers.crm_flattened_balance`: the descriptive
CRM columns plus the usage/cost columns (crm.py lines 83-106). -/
structure BalanceRow where
  crm : CrmRecord
  total_data_bytes : ℤ
  data_cost_zar : ℚ
  total_call_seconds : ℤ
  voice_cost_zar : ℚ
  total_cost_zar : ℚ
  running_balance_zar : ℚ
deriving DecidableEq, Repr

/-- The cost placeholder columns added by `process_crm_data_1`
(crm.py lines 66-72): all usage and cost fields start at zero. -/
def placeholderRow (c : CrmRecord) : BalanceRow :=
  { crm := c
    total_data_bytes := 0
    data_cost_zar := 0
    total_call_seconds := 0
    voice_cost_zar := 0
    total_cost_zar := 0
    running_balance_zar := 0 }

/-- The `(account_id, device_id)` primary key of
`crm_flattened_balance`. -/
def upsertKey (r : BalanceRow) : ℕ × ℕ :=
  (r.crm.account_id, r.crm.device_id)

/-- The `INSERT ... ON CONFLICT (account_id, device_id) DO UPDATE`
statement of `process_crm_data_1` (crm.py lines 120-138), applied
row-sequentially: a fresh key is inserted whole; a conflicting key has
its descriptive columns replaced by the excluded row's (the `DO UPDATE
SET` list names every `CrmRecord` column except the key itself) while
the usage/cost columns keep their stored values. Here `upsertWrite r` is
the per-row effect of the conflict resolution for excluded row `r`, and
`upsertOne` applies one row of the `VALUES` list to the table. -/
def upsertWrite (r x : BalanceRow) : BalanceRow :=
  if upsertKey x = upsertKey r then { x with crm := r.crm } else x

def upsertOne (t : List BalanceRow) (r : BalanceRow) : List BalanceRow :=
  if t.any (fun x => upsertKey x = upsertKey r) then t.map (upsertWrite r)
  else t ++ [r]

/-- Function `process_crm_data_1` (crm.py lines 17-162), as a map from the
production query result `df` and the prior durable table `t` to the new
durable table: an empty query result returns early (crm.py lines 62-64)
leaving `t` in place; otherwise the table is dropped, recreated empty and
repopulated by upserting the placeholder rows. -/
def process_crm_data_1 (df : List CrmRecord) (t : List BalanceRow) : List BalanceRow :=
  if df = [] then t
  else (df.map placeholderRow).foldl upsertOne []

/-- The first `UPDATE` of `update_crm_balances_from_cdr` (crm.py lines
178-200) applied to one row. `cdrBytes m` is `some b` when msisdn `m` has
rows in `cdr_data.cdr_data` (with `b` the summed `up_bytes + down_bytes`)
and `none` otherwise; `voiceSecs` likewise for `cdr_data.cdr_voice`. A
row joins the update only through `crm.msisdn = cdr_summary.msisdn`, so a
row whose msisdn has no data rows is untouched even if it has voice rows;
`voice_summary` is LEFT JOINed, `COALESCE`d to 0. -/
def applyCdrUpdate (cdrBytes voiceSecs : String → Option ℤ) (r : BalanceRow) : BalanceRow :=
  match cdrBytes r.crm.msisdn with
  | none => r
  | some b =>
    { r with
      total_data_bytes := b
      data_cost_zar := data_cost_zar (b : ℚ)
      total_call_seconds := (voiceSecs r.crm.msisdn).getD 0
      voice_cost_zar := voice_cost_zar (((voiceSecs r.crm.msisdn).getD 0 : ℤ) : ℚ) }

/-- The second `UPDATE` of `update_crm_balances_from_cdr` (crm.py lines
203-209) applied to one row: where `total_data_bytes > 0 OR
total_call_seconds > 0`, set `total_cost_zar = data_cost_zar +
voice_cost_zar` and `running_balance_zar = -(data_cost_zar +
voice_cost_zar)`. -/
def applyTotalUpdate (r : BalanceRow) : BalanceRow :=
  if 0 < r.total_data_bytes ∨ 0 < r.total_call_seconds then
    { r with
      total_cost_zar := r.data_cost_zar + r.voice_cost_zar
      running_balance_zar := -(r.data_cost_zar + r.voice_cost_zar) }
  else r

/-- Function `update_crm_balances_from_cdr` (crm.py lines 165-221): the two SQL
`UPDATE` statements in order, each acting row-wise on the table. -/
def update_crm_balances_from_cdr (cdrBytes voiceSecs : String → Option ℤ)
    (t : List BalanceRow) : List BalanceRow :=
  (t.map (applyCdrUpdate cdrBytes voiceSecs)).map applyTotalUpdate

/-- All usage and cost columns of a row are zero — the state every row of
the freshly rebuilt `crm_flattened_balance` table is in. -/
def costZero (r : BalanceRow) : Prop :=
  r.total_data_bytes = 0 ∧ r.data_cost_zar = 0 ∧ r.total_call_seconds = 0 ∧
  r.voice_cost_zar = 0 ∧ r.total_cost_zar = 0 ∧ r.running_balance_zar = 0

instance (r : BalanceRow) : Decidable (costZero r) := by
  unfold costZero
  infer_instance

/-! ## Transactional behaviour of `process_crm_data_1`

`process_crm_data_1` runs on a psycopg2 connection to the analytics
database: statements accumulate in the open transaction (visible to the
session but not durable), `conn.commit()` makes the pending state
durable, and the `except` handler calls `conn.rollback()` (crm.py line
158) discarding the pending state. The pass commits TWICE: once right
after the `DROP TABLE`/`CREATE TABLE` DDL (crm.py line 111) and once
after the `execute_values` insert (line 141). The model below makes
the commit/rollback discipline explicit and lets an exception be
injected at each of the pass's steps. -/

/-- The steps of `process_crm_data_1` at which the Python code can raise:
the production-side read (`pd.read_sql`), the `DROP`/`CREATE` DDL, the
`execute_values` insert, and the sample `SELECT` at the end. -/
inductive PassStep where
  | readProd
  | ddl
  | insert
  | sample
deriving DecidableEq, Repr

/-- The analytics-database state seen by the pass: the durable
(committed) `crm_flattened_balance` table (`none` = table absent), the
session's uncommitted view of it, and the `processing_state` watermark
row (`none` = no watermark stored). `process_crm_data_1` never touches
the watermark. -/
structure TxState where
  committed : Option (List BalanceRow)
  pending : Option (List BalanceRow)
  watermark : Option ℕ
deriving DecidableEq, Repr

/-- Effect of `conn.rollback()`: discard the uncommitted session state. -/
def rollbackTx (s : TxState) : TxState :=
  { s with pending := s.committed }

/-- Effect of `conn.commit()`: make the session state durable. -/
def commitTx (s : TxState) : TxState :=
  { s with committed := s.pending }

/-- Run of `process_crm_data_1` over the transactional state, with `failAt`
telling which steps raise. Faithful to crm.py's control flow: a raise at
any step lands in the `except` block, which rolls back and re-raises; the
`DROP`/`CREATE` DDL is committed (line 111) before the insert runs, so a
raise in the insert only rolls back the uncommitted insert. -/
def crmPassTx (df : List CrmRecord) (failAt : PassStep → Bool) (s0 : TxState) : TxState :=
  let s := { s0 with pending := s0.committed }
  if failAt .readProd then rollbackTx s
  else if df = [] then s
  else
    let s1 := { s with pending := some [] }
    if failAt .ddl then rollbackTx s1
    else
      let s2 := commitTx s1
      let s3 := { s2 with pending := some ((df.map placeholderRow).foldl upsertOne []) }
      if failAt .insert then rollbackTx s2
      else
        let s4 := commitTx s3
        if failAt .sample then rollbackTx s4 else s4

/-! ## Sessionizer and the tower-sessions table

The tower sessionizer lives in `prepared_layers/layers/cdr.py`
(`process_cdr_data_2`), a module that is not part of the source tree;
only its unit test (`tests/test_prepared_layers.py::
test_cdr_data_2_session_detection`, which asserts the
`TRUNCATE TABLE prepared_layers.cdr_tower_sessions` call) is. The
definitions below are modelled from the spec. Timestamps are seconds. -/

/-- A tower attach/interaction event for one subscriber: tower id and
timestamp (seconds). -/
structure TowerEvent where
  tower_id : ℕ
  ts : ℕ
deriving DecidableEq, Repr

/-- A row of `prepared_layers.cdr_tower_sessions`: tower id, session
start, session end, interaction count. -/
structure TowerSession where
  tower_id : ℕ
  session_start : ℕ
  session_end : ℕ
  interaction_count : ℕ
deriving DecidableEq, Repr

/-- Modelled from the spec: the scan loop of the sessionizer (spec 4.2),
carrying the open session (tower, start, last event timestamp, count). A
same-tower event within the gap threshold extends the open session; a
tower change or a gap exceeding the threshold closes it and opens a new
one; the end of the input closes (never drops) the open session. -/
def sessionizeGo (gap tower start last count : ℕ) :
    List TowerEvent → List TowerSession
  | [] => [⟨tower, start, last, count⟩]
  | e :: es =>
    if e.tower_id = tower ∧ e.ts - last ≤ gap then
      sessionizeGo gap tower start e.ts (count + 1) es
    else
      ⟨tower, start, last, count⟩ :: sessionizeGo gap e.tower_id e.ts e.ts 1 es

/-- Modelled from the spec: the sessionizer of `process_cdr_data_2`
(spec 4.2) over the timestamp-ordered tower events of one subscriber,
with inactivity-gap threshold `gap` (seconds). Empty input yields no
session; a first event opens a session anchored at its own tower and
timestamp. -/
def sessionize (gap : ℕ) : List TowerEvent → List TowerSession
  | [] => []
  | e :: es => sessionizeGo gap e.tower_id e.ts e.ts 1 es

/-- Modelled from the spec: `process_cdr_data_2` (module absent from the
source tree) truncates `prepared_layers.cdr_tower_sessions` — the
`TRUNCATE` the repository's unit test asserts — and repopulates it from
the sessionizer's output alone; the prior table contents `t` do not flow
into the result. -/
def process_cdr_data_2 (events : List TowerEvent) (gap : ℕ)
    (_t : List TowerSession) : List TowerSession :=
  sessionize gap events

/-! ## The voice/data outer merge of CDR Data - 1

`process_cdr_data_1` (also in the absent `cdr.py`) merges the per-bucket
voice summary and data summary on `(datetime, msisdn)`; its unit test
(`tests/test_prepared_layers.py::test_cdr_data_1_merge_and_columns`)
performs `pd.merge(voice_df, data_df, on=["datetime","msisdn"],
how="outer").fillna(0)` and checks the merged row. The merge is modelled
below for inputs whose keys are unique per side (the inputs are grouped
summaries, one row per key). -/

/-- The voice-side columns of the merge (from the unit test's
`voice_df`). -/
structure VoiceVals where
  voice_call_count : ℤ
  video_call_count : ℤ
  total_call_duration_sec : ℤ
deriving DecidableEq, Repr

/-- The data-side columns of the merge (from the unit test's
`data_df`). -/
structure DataVals where
  video_up : ℤ
  video_down : ℤ
  audio_up : ℤ
  audio_down : ℤ
  image_up : ℤ
  image_down : ℤ
  text_up : ℤ
  text_down : ℤ
  app_up : ℤ
  app_down : ℤ
  total_up : ℤ
  total_down : ℤ
deriving DecidableEq, Repr

/-- The zero-fill for a key with no voice record (`fillna(0)`). -/
def zeroVoice : VoiceVals := ⟨0, 0, 0⟩

/-- The zero-fill for a key with no data record (`fillna(0)`). -/
def zeroData : DataVals := ⟨0, 0, 0, 0, 0, 0, 0, 0, 0, 0, 0, 0⟩

/-- One merged output row: the `(datetime, msisdn)` key and both sides'
columns. -/
structure MergedRow where
  key : String × String
  voice : VoiceVals
  data : DataVals
deriving DecidableEq, Repr

/-- First-match association lookup on a `(datetime, msisdn)`-keyed list
(the join-key probe of the merge). -/
def assocLookup {β : Type} (k : String × String) :
    List ((String × String) × β) → Option β
  | [] => none
  | kv :: rest => if kv.1 = k then some kv.2 else assocLookup k rest

/-- Modelled from the spec: the keyed outer join
`pd.merge(voice_df, data_df, on=["datetime","msisdn"], how="outer")
.fillna(0)` of CDR Data - 1, for unique-keyed inputs: every voice row is
emitted with its matching data row (zero-filled when absent), then every
data row whose key has no voice match is emitted zero-filled on the
voice side. -/
def outerMerge (voice : List ((String × String) × VoiceVals))
    (data : List ((String × String) × DataVals)) : List MergedRow :=
  (voice.map fun kv => ⟨kv.1, kv.2, (assocLookup kv.1 data).getD zeroData⟩) ++
    ((data.filter fun kd => (assocLookup kd.1 voice).isNone).map
      fun kd => ⟨kd.1, zeroVoice, kd.2⟩)

/-! ## Connection retry (prepared_layers/database.py, lines 10-25)

`get_db_connection` loops `for attempt in range(10)`, tries to connect,
returns the connection on success, and on an exception logs and sleeps 5
seconds; after the loop it raises. The sequence of attempt outcomes is
modelled as a function `ℕ → Option ℕ` (`some c` = attempt succeeds with
connection `c`, `none` = attempt raises). -/

/-- The outcome of a `get_db_connection` call: the connection if one was
returned (`none` = the final exception was raised), the number of
attempts made, and the total seconds slept. -/
structure ConnResult where
  connection : Option ℕ
  attemptsMade : ℕ
  sleptSeconds : ℕ
deriving DecidableEq, Repr

/-- The retry loop of `get_db_connection` (database.py lines 12-24):
`n` attempts remain, `i` attempts were already made, `sl` seconds were
already slept. Each failed attempt sleeps 5 seconds (the Python code
sleeps even after the final failure, before raising). -/
def getDbConnectionGo (outcome : ℕ → Option ℕ) : ℕ → ℕ → ℕ → ConnResult
  | 0, i, sl => ⟨none, i, sl⟩
  | n + 1, i, sl =>
    match outcome i with
    | some c => ⟨some c, i + 1, sl⟩
    | none => getDbConnectionGo outcome n (i + 1) (sl + 5)

/-- Function `get_db_connection` (database.py lines 10-25): up to 10 attempts,
5-second fixed delay after each failure, raising only after all 10
attempts failed. -/
def get_db_connection (outcome : ℕ → Option ℕ) : ConnResult :=
  getDbConnectionGo outcome 10 0 0

/-! ## Concrete sample data for the witnesses

The records mirror the fixtures of `tests/test_prepared_layers.py` and
`tests/test_hvs.py`. -/

/-- The CRM fixture row of
`tests/test_prepared_layers.py::test_crm_data_1_flatten_and_balance`. -/
def rec0 : CrmRecord :=
  ⟨1, 101, "John Doe", "john@example.com", "27820000001", "iPhone",
    "Mobile", "iOS", "123 Main St", "Cape Town", "Western Cape", "8000",
    "South Africa", 0⟩

/-- A second concrete CRM row (distinct key from `rec0`). -/
def rec1 : CrmRecord :=
  ⟨2, 202, "Jane Smith", "jane@example.com", "27820000002", "Galaxy",
    "Mobile", "Android", "9 Long St", "Durban", "KwaZulu-Natal", "4000",
    "South Africa", 0⟩

/-- A concrete `cdr_summary`: every msisdn has 2^30 total bytes. -/
def cb0 : String → Option ℤ := fun _ => some 1073741824

/-- A concrete `voice_summary`: every msisdn has 60 total seconds. -/
def vs0 : String → Option ℤ := fun _ => some 60

/-- The row `rec0` ends up as after a flatten pass followed by a balance
update against `cb0`/`vs0`: 1 GiB of data (49 ZAR), 60 s of voice
(1 ZAR), total 50 ZAR, running balance -50 ZAR. -/
def row0 : BalanceRow := ⟨rec0, 1073741824, 49, 60, 1, 50, -50⟩

/-- Failure injection raising only in the `execute_values` insert step. -/
def failAtInsert : PassStep → Bool := fun p => p == PassStep.insert

/-- A pre-pass analytics state: the durable `crm_flattened_balance`
already holds the (placeholder) row for `rec0`, no open transaction
changes, no watermark row. -/
def s0ex : TxState :=
  ⟨some [placeholderRow rec0], some [placeholderRow rec0], none⟩

/-- C1 (amended): for every non-negative byte count `b`, the batch
balance path's data cost equals `b / 2^30 * DATA_COST_PER_GB`, so exactly
1,073,741,824 bytes yields data_cost = 49 exactly; but the streaming cost
helper does not share the `2^30` divisor — its own unit test fixes
1,000,000,000 bytes ↦ `round (49 * rate)`, i.e. a helper pricing data per
decimal GB (`10^9` bytes) is the one that satisfies the test, at every
rate. -/
theorem C1_data_cost (b : ℚ) (hb : 0 ≤ b) :
    data_cost_zar b = b / 2 ^ 30 * DATA_COST_PER_GB ∧
    data_cost_zar 1073741824 = 49 ∧
    ∀ r : ℚ,
      test_data_cost_wak (fun x => round (x / 1000000000 * DATA_COST_PER_GB * r)) r := by
  refine ⟨?_, ?_, ?_⟩
  · rw [data_cost_zar]
    norm_num
    ring
  · rw [data_cost_zar, DATA_COST_PER_GB]
    norm_num
  · intro r
    rw [test_data_cost_wak, DATA_COST_PER_GB]
    norm_num

/-- Witness for C1_data_cost at the concrete byte count 2^30. -/
theorem C1_data_cost_witness :
    data_cost_zar 1073741824 = (1073741824 : ℚ) / 2 ^ 30 * DATA_COST_PER_GB :=
  (C1_data_cost 1073741824 (by norm_num)).1

/-- C1 (counterexample): the claim says the `bytes / 2^30 * 49` formula is
shared by the streaming cost helper, but a helper computing exactly that
(converted at rate 1) fails the repository's own unit test
`test_data_cost_wak`, which expects 1,000,000,000 bytes to cost
`round (49 * rate)`: the formula gives `round (10^9 * 49 / 2^30) = 46`,
not `49`. -/
theorem C1_counterexample :
    ¬ test_data_cost_wak (fun b => round (data_cost_zar b * 1)) 1 := by
  simp only [test_data_cost_wak, data_cost_zar, DATA_COST_PER_GB]
  norm_num [round_eq]

/-- C7: for every non-negative duration `s`, the batch voice cost equals
`s / 60 * VOICE_COST_PER_MIN` (the fixed constant 1); the secondary
conversion multiplies the base-currency cost by the rate factor and
rounds to the nearest integer, so 60 seconds of voice yields
`round (1 * rate)` — which is exactly what the repository's unit test
`test_voice_cost_wak` asserts. -/
theorem C7_voice_cost (s r : ℚ) (hs : 0 ≤ s) :
    voice_cost_zar s = s / 60 * VOICE_COST_PER_MIN ∧
    voice_cost_wak r s = round (voice_cost_zar s * r) ∧
    voice_cost_wak r 60 = round (1 * r) ∧
    test_voice_cost_wak (voice_cost_wak r) r := by
  refine ⟨?_, ?_, ?_, ?_⟩
  · rw [voice_cost_zar]
    ring
  · rw [voice_cost_wak, voice_cost_zar]
    congr 1
    ring
  · rw [voice_cost_wak, VOICE_COST_PER_MIN]
    norm_num
  · rw [test_voice_cost_wak, voice_cost_wak, VOICE_COST_PER_MIN]
    norm_num

/-- Witness for C7_voice_cost at the concrete duration 60 s, rate 17/10. -/
theorem C7_voice_cost_witness :
    voice_cost_zar 60 = (60 : ℚ) / 60 * VOICE_COST_PER_MIN :=
  (C7_voice_cost 60 (17 / 10) (by norm_num)).1

/-- C6: on the tower-event list [(T1, t0), (T1, t0+1m), (T2, t0+5m)]
(T1 = 1, T2 = 2, t0 = 0, times in seconds) with a 2-minute (120 s) gap
threshold, the sessionizer emits exactly the two sessions
(T1, t0, t0+1m, count 2) and (T2, t0+5m, t0+5m, count 1); and any single
trailing event yields a session whose start and end are the event's own
timestamp with interaction_count 1 — never silently dropped. -/
theorem C6_sessionizer_example :
    sessionize 120 [⟨1, 0⟩, ⟨1, 60⟩, ⟨2, 300⟩] =
      [⟨1, 0, 60, 2⟩, ⟨2, 300, 300, 1⟩] ∧
    ∀ e : TowerEvent, sessionize 120 [e] = [⟨e.tower_id, e.ts, e.ts, 1⟩] := by
  exact ⟨by decide, fun e => rfl⟩

/-- C10: a production CRM query returning zero rows makes
`process_crm_data_1` return early before the drop-and-rebuild step: the
durable flattened table is preserved, and the transactional view of the
pass leaves both the committed table and the watermark of the analytics
database exactly as they were, whether or not the production-side read
raised. -/
theorem C10_empty_input_noop :
    ∀ (t : List BalanceRow) (s0 : TxState) (failAt : PassStep → Bool),
      process_crm_data_1 [] t = t ∧
      (crmPassTx [] failAt s0).committed = s0.committed ∧
      (crmPassTx [] failAt s0).watermark = s0.watermark := by
  intro t s0 failAt
  refine ⟨rfl, ?_, ?_⟩ <;>
    · unfold crmPassTx rollbackTx
      by_cases h : failAt PassStep.readProd <;> simp [h]

/-- C3 (code defect): an exception raised by the `execute_values` insert
does NOT leave the durable table as it was before the pass. The
`DROP TABLE`/`CREATE TABLE` DDL is committed on its own (crm.py line 111)
before the insert runs, so the `except` handler's rollback (line 158)
only discards the uncommitted insert: the pre-existing rows are already
destroyed and the pass leaves the table recreated and empty. The
watermark half of the claim holds: the pass never touches it. -/
theorem C3_failed_insert_loses_table :
    (crmPassTx [rec1] failAtInsert s0ex).watermark = s0ex.watermark ∧
    (crmPassTx [rec1] failAtInsert s0ex).committed = some [] ∧
    (crmPassTx [rec1] failAtInsert s0ex).committed ≠ s0ex.committed := by
  refine ⟨rfl, rfl, ?_⟩
  decide

/-- C8 (counterexample): the flattened-profile table is NOT rebuilt on
every pass: a pass whose production query returns zero rows returns
early (crm.py lines 62-64), and a row present before such a pass
survives it — it is not destroyed and the table is not repopulated from
the (empty) input. -/
theorem C8_counterexample :
    process_crm_data_1 [] [placeholderRow rec0] = [placeholderRow rec0] ∧
    [placeholderRow rec0] ≠ ([] : List BalanceRow) := by
  exact ⟨rfl, by simp⟩

/-- C8 (amended): on every pass whose input is nonempty the whole-table
views are fully rebuilt: the resulting flattened balance table does not
depend on any row present before the pass and equals the table built
from the pass's input alone, and the sessions table is truncated and
rebuilt from the sessionizer output alone on every pass. -/
theorem C8_drop_and_rebuild (df : List CrmRecord) (hdf : df ≠ [])
    (t t' : List BalanceRow) :
    process_crm_data_1 df t = process_crm_data_1 df t' ∧
    process_crm_data_1 df t = (df.map placeholderRow).foldl upsertOne [] ∧
    ∀ (ev : List TowerEvent) (g : ℕ) (s s' : List TowerSession),
      process_cdr_data_2 ev g s = process_cdr_data_2 ev g s' := by
  refine ⟨?_, ?_, fun _ _ _ _ => rfl⟩ <;> simp [process_crm_data_1, hdf]

/-- Witness for C8_drop_and_rebuild: a concrete nonempty pass gives the
same table whatever the prior table was. -/
theorem C8_drop_and_rebuild_witness :
    process_crm_data_1 [rec0] [placeholderRow rec1] =
      process_crm_data_1 [rec0] [] :=
  (C8_drop_and_rebuild [rec0] (by simp) [placeholderRow rec1] []).1

/-- The retry loop after `n` straight failures: all attempts fail, so the
loop exhausts its budget, sleeping 5 seconds per failure. -/
theorem getDbConnectionGo_allFail (outcome : ℕ → Option ℕ) :
    ∀ n i sl, (∀ j, i ≤ j → j < i + n → outcome j = none) →
      getDbConnectionGo outcome n i sl = ⟨none, i + n, sl + 5 * n⟩ := by
  intro n
  induction n with
  | zero => intro i sl _; simp [getDbConnectionGo]
  | succ n ih =>
    intro i sl h
    have h0 : outcome i = none := h i le_rfl (by omega)
    rw [getDbConnectionGo, h0, ih (i + 1) (sl + 5) (fun j h1 h2 => h j (by omega) (by omega))]
    simp
    omega

/-- The retry loop when attempt `i + k` is the first to succeed. -/
theorem getDbConnectionGo_firstSuccess (outcome : ℕ → Option ℕ) :
    ∀ n k i sl c, k < n → outcome (i + k) = some c →
      (∀ j, i ≤ j → j < i + k → outcome j = none) →
      getDbConnectionGo outcome n i sl = ⟨some c, i + k + 1, sl + 5 * k⟩ := by
  intro n
  induction n with
  | zero => intro k i sl c hk; omega
  | succ n ih =>
    intro k i sl c hk hc hfail
    cases k with
    | zero =>
      rw [getDbConnectionGo]
      simp only [Nat.add_zero] at hc
      rw [hc]
      simp
    | succ k =>
      have h0 : outcome i = none := hfail i le_rfl (by omega)
      rw [getDbConnectionGo, h0,
        ih k (i + 1) (sl + 5) c (by omega) (by rw [show i + 1 + k = i + (k + 1) by omega]; exact hc)
          (fun j h1 h2 => hfail j (by omega) (by omega))]
      simp
      omega

/-- C9: `get_db_connection` retries up to the fixed bound of 10 attempts
with a fixed 5-second delay after each failure; it returns the
connection of the first attempt that succeeds (having slept 5 seconds
per failed attempt before it), and only after all 10 attempts fail does
it surface the fatal error (`connection = none`), having made exactly 10
attempts. -/
theorem C9_connection_retry (outcome : ℕ → Option ℕ) :
    (∀ i c, i < 10 → outcome i = some c → (∀ j, j < i → outcome j = none) →
      get_db_connection outcome = ⟨some c, i + 1, 5 * i⟩) ∧
    ((∀ j, j < 10 → outcome j = none) →
      get_db_connection outcome = ⟨none, 10, 50⟩) := by
  constructor
  · intro i c hi hc hfail
    unfold get_db_connection
    rw [getDbConnectionGo_firstSuccess outcome 10 i 0 0 c hi (by simpa using hc)
      (fun j _ h2 => hfail j (by omega))]
    simp
  · intro h
    unfold get_db_connection
    rw [getDbConnectionGo_allFail outcome 10 0 0 (fun j _ h2 => h j (by omega))]

/-- Witness for C9_connection_retry: attempts 0-2 fail, attempt 3
succeeds with connection 7: the call returns connection 7 after 4
attempts and 15 seconds of sleeping. -/
theorem C9_connection_retry_witness :
    get_db_connection (fun i => if i = 3 then some 7 else none) =
      ⟨some 7, 4, 15⟩ :=
  (C9_connection_retry (fun i => if i = 3 then some 7 else none)).1 3 7
    (by norm_num) (by norm_num) (by decide)

/-- The second `UPDATE` leaves the descriptive columns unchanged. -/
theorem applyTotalUpdate_crm (r : BalanceRow) :
    (applyTotalUpdate r).crm = r.crm := by
  unfold applyTotalUpdate
  split <;> rfl

/-- The second `UPDATE` leaves `total_data_bytes` unchanged. -/
theorem applyTotalUpdate_bytes (r : BalanceRow) :
    (applyTotalUpdate r).total_data_bytes = r.total_data_bytes := by
  unfold applyTotalUpdate
  split <;> rfl

/-- The second `UPDATE` leaves `total_call_seconds` unchanged. -/
theorem applyTotalUpdate_secs (r : BalanceRow) :
    (applyTotalUpdate r).total_call_seconds = r.total_call_seconds := by
  unfold applyTotalUpdate
  split <;> rfl

/-- The second `UPDATE` leaves `data_cost_zar` unchanged. -/
theorem applyTotalUpdate_dataCost (r : BalanceRow) :
    (applyTotalUpdate r).data_cost_zar = r.data_cost_zar := by
  unfold applyTotalUpdate
  split <;> rfl

/-- The second `UPDATE` leaves `voice_cost_zar` unchanged. -/
theorem applyTotalUpdate_voiceCost (r : BalanceRow) :
    (applyTotalUpdate r).voice_cost_zar = r.voice_cost_zar := by
  unfold applyTotalUpdate
  split <;> rfl

/-- The first `UPDATE` leaves the descriptive columns unchanged. -/
theorem applyCdrUpdate_crm (cb vs : String → Option ℤ) (r : BalanceRow) :
    (applyCdrUpdate cb vs r).crm = r.crm := by
  unfold applyCdrUpdate
  rcases cb r.crm.msisdn <;> rfl

/-- Re-running the second `UPDATE` changes nothing: it writes
`total_cost_zar`/`running_balance_zar` from columns it does not touch. -/
theorem applyTotalUpdate_idem (r : BalanceRow) :
    applyTotalUpdate (applyTotalUpdate r) = applyTotalUpdate r := by
  by_cases h : 0 < r.total_data_bytes ∨ 0 < r.total_call_seconds <;>
    simp [applyTotalUpdate, h]

/-- Writing the usage columns of the first `UPDATE` into a row that
already holds exactly those values is the identity. -/
theorem applyCdrUpdate_of_values (cb vs : String → Option ℤ) (q : BalanceRow)
    (b : ℤ) (h : cb q.crm.msisdn = some b)
    (h1 : q.total_data_bytes = b)
    (h2 : q.data_cost_zar = data_cost_zar (b : ℚ))
    (h3 : q.total_call_seconds = (vs q.crm.msisdn).getD 0)
    (h4 : q.voice_cost_zar = voice_cost_zar (((vs q.crm.msisdn).getD 0 : ℤ) : ℚ)) :
    applyCdrUpdate cb vs q = q := by
  cases q
  simp_all [applyCdrUpdate]

/-- Re-running the first `UPDATE` on a row the two updates already
processed changes nothing: the usage columns are recomputed from the same
aggregates, so they are overwritten with the values they already hold. -/
theorem applyCdrUpdate_after_both (cb vs : String → Option ℤ) (r : BalanceRow) :
    applyCdrUpdate cb vs (applyTotalUpdate (applyCdrUpdate cb vs r)) =
      applyTotalUpdate (applyCdrUpdate cb vs r) := by
  rcases h : cb r.crm.msisdn with _ | b
  · have h1 : applyCdrUpdate cb vs r = r := by simp [applyCdrUpdate, h]
    rw [h1]
    unfold applyCdrUpdate
    rw [applyTotalUpdate_crm, h]
  · have hcrm : (applyTotalUpdate (applyCdrUpdate cb vs r)).crm = r.crm := by
      rw [applyTotalUpdate_crm, applyCdrUpdate_crm]
    refine applyCdrUpdate_of_values cb vs _ b (by rw [hcrm]; exact h) ?_ ?_ ?_ ?_ <;>
      simp [hcrm, applyTotalUpdate_crm, applyTotalUpdate_bytes, applyTotalUpdate_secs,
        applyTotalUpdate_dataCost, applyTotalUpdate_voiceCost, applyCdrUpdate, h]

/-- Applying both `UPDATE`s of the balance pass twice to a row equals
applying them once. -/
theorem applyUpdates_row_idem (cb vs : String → Option ℤ) (r : BalanceRow) :
    applyTotalUpdate (applyCdrUpdate cb vs (applyTotalUpdate (applyCdrUpdate cb vs r))) =
      applyTotalUpdate (applyCdrUpdate cb vs r) := by
  rw [applyCdrUpdate_after_both, applyTotalUpdate_idem]

/-- Re-running `update_crm_balances_from_cdr` against the same CDR
aggregates changes nothing. -/
theorem update_crm_balances_idem (cb vs : String → Option ℤ) (t : List BalanceRow) :
    update_crm_balances_from_cdr cb vs (update_crm_balances_from_cdr cb vs t) =
      update_crm_balances_from_cdr cb vs t := by
  induction t with
  | nil => rfl
  | cons r rs ih =>
    simp only [update_crm_balances_from_cdr, List.map_cons] at ih ⊢
    rw [applyUpdates_row_idem, ih]

/-- Re-applying the conflict-resolving write of the same excluded row is
the identity: the replaced descriptive columns are replaced with the same
values again. -/
theorem upsertWrite_idem (r x : BalanceRow) :
    upsertWrite r (upsertWrite r x) = upsertWrite r x := by
  by_cases h : upsertKey x = upsertKey r
  · simp only [upsertWrite, if_pos h]
    have h2 : upsertKey { x with crm := r.crm } = upsertKey r := rfl
    rw [if_pos h2]
  · simp only [upsertWrite, if_neg h]

/-- Upserting the same row twice equals upserting it once: the second
application hits the key the first one wrote and replaces, not adds. -/
theorem upsertOne_idem (t : List BalanceRow) (r : BalanceRow) :
    upsertOne (upsertOne t r) r = upsertOne t r := by
  by_cases h : (t.any fun x => upsertKey x = upsertKey r) = true
  · have e1 : upsertOne t r = t.map (upsertWrite r) := by
      rw [upsertOne, if_pos h]
    rw [e1, upsertOne, if_pos ?hany, List.map_map]
    case hany =>
      rcases List.any_eq_true.1 h with ⟨x, hx, hk⟩
      simp only [decide_eq_true_eq] at hk
      refine List.any_eq_true.2 ⟨upsertWrite r x, List.mem_map_of_mem _ hx, ?_⟩
      have hw : upsertKey (upsertWrite r x) = upsertKey r := by
        rw [upsertWrite, if_pos hk]
        rfl
      simp [hw]
    exact List.map_congr_left fun x _ => upsertWrite_idem r x
  · have hnone : ∀ x ∈ t, ¬ upsertKey x = upsertKey r := by simpa using h
    have e1 : upsertOne t r = t ++ [r] := by
      rw [upsertOne, if_neg h]
    rw [e1, upsertOne, if_pos ?hany2, List.map_append]
    case hany2 => exact List.any_eq_true.2 ⟨r, by simp, by simp⟩
    have h1 : t.map (upsertWrite r) = t := by
      calc t.map (upsertWrite r) = t.map id :=
            List.map_congr_left fun x hx => by simp [upsertWrite, hnone x hx]
        _ = t := List.map_id t
    have h2 : [r].map (upsertWrite r) = [r] := by simp [upsertWrite]
    rw [h1, h2]

/-- C2: re-applying the same input window is idempotent — re-running the
flatten pass on the same production rows yields byte-identical output
rows (it is a function of the input alone), re-running the balance update
against the same CDR aggregates leaves every row unchanged (the usage
columns are overwritten with the same full-window totals, replace not
add), and upserting the same row twice equals upserting it once. -/
theorem C2_reapply_idempotent :
    (∀ (df : List CrmRecord) (t : List BalanceRow),
      process_crm_data_1 df (process_crm_data_1 df t) = process_crm_data_1 df t) ∧
    (∀ (cb vs : String → Option ℤ) (t : List BalanceRow),
      update_crm_balances_from_cdr cb vs (update_crm_balances_from_cdr cb vs t) =
        update_crm_balances_from_cdr cb vs t) ∧
    (∀ (t : List BalanceRow) (r : BalanceRow),
      upsertOne (upsertOne t r) r = upsertOne t r) := by
  refine ⟨?_, fun cb vs t => update_crm_balances_idem cb vs t,
    fun t r => upsertOne_idem t r⟩
  intro df t
  by_cases h : df = [] <;> simp [process_crm_data_1, h]

/-- Every row of a table built by upserting placeholder rows into a
table of zero-cost rows has zero usage and cost columns: the insert
branch adds a placeholder and the conflict branch keeps the stored
usage/cost columns. -/
theorem costZero_foldl (rs : List BalanceRow) (acc : List BalanceRow)
    (hacc : ∀ x ∈ acc, costZero x) (hrs : ∀ x ∈ rs, costZero x) :
    ∀ x ∈ rs.foldl upsertOne acc, costZero x := by
  induction rs generalizing acc with
  | nil => simpa using hacc
  | cons r rs ih =>
    intro x hx
    refine ih (upsertOne acc r) ?_ (fun y hy => hrs y (by simp [hy])) x hx
    intro y hy
    rw [upsertOne] at hy
    split at hy
    · obtain ⟨z, hz, rfl⟩ := List.mem_map.1 hy
      have hzz := hacc z hz
      by_cases hk : upsertKey z = upsertKey r <;>
        simp [upsertWrite, hk, costZero] at hzz ⊢ <;> exact hzz
    · rcases List.mem_append.1 hy with h1 | h1
      · exact hacc y h1
      · rw [List.mem_singleton.1 h1]
        exact hrs r (by simp)

/-- C4: after a balance-update pass over the freshly flattened table,
every row satisfies the invariant `total_cost_zar = data_cost_zar +
voice_cost_zar` and `running_balance_zar = -total_cost_zar` (prepaid
debit), provided the production query returned at least one row and the
summed CDR measures are non-negative (they are sums of byte and second
counts). -/
theorem C4_balance_invariant (df : List CrmRecord) (cb vs : String → Option ℤ)
    (t : List BalanceRow) (hdf : df ≠ [])
    (hb : ∀ m b, cb m = some b → 0 ≤ b)
    (hsv : ∀ m s, vs m = some s → 0 ≤ s) :
    ∀ r ∈ update_crm_balances_from_cdr cb vs (process_crm_data_1 df t),
      r.total_cost_zar = r.data_cost_zar + r.voice_cost_zar ∧
      r.running_balance_zar = -r.total_cost_zar := by
  intro r hr
  rw [process_crm_data_1, if_neg hdf] at hr
  unfold update_crm_balances_from_cdr at hr
  obtain ⟨y, hy, rfl⟩ := List.mem_map.1 hr
  obtain ⟨x, hx, rfl⟩ := List.mem_map.1 hy
  have hz : costZero x := by
    refine costZero_foldl _ [] (by simp) ?_ x hx
    intro u hu
    obtain ⟨c, _, rfl⟩ := List.mem_map.1 hu
    simp [placeholderRow, costZero]
  obtain ⟨h1, h2, h3, h4, h5, h6⟩ := hz
  rcases hcb : cb x.crm.msisdn with _ | b
  · simp only [applyCdrUpdate, hcb, applyTotalUpdate, h1, h3]
    norm_num [h2, h4, h5, h6]
  · have hb0 : 0 ≤ b := hb _ _ hcb
    have hs0 : 0 ≤ (vs x.crm.msisdn).getD 0 := by
      rcases hvs : vs x.crm.msisdn with _ | s
      · simp
      · simpa using hsv _ _ hvs
    by_cases hc : 0 < b ∨ 0 < (vs x.crm.msisdn).getD 0
    · simp only [applyCdrUpdate, hcb, applyTotalUpdate]
      simp [hc]
    · push_neg at hc
      have hb1 : b = 0 := le_antisymm hc.1 hb0
      have hs1 : (vs x.crm.msisdn).getD 0 = 0 := le_antisymm hc.2 hs0
      simp only [applyCdrUpdate, hcb, applyTotalUpdate]
      simp [hb1, hs1, data_cost_zar, voice_cost_zar, h5, h6]

/-- Witness for C4_balance_invariant: the concrete pass over `rec0` with
1 GiB of data and 60 s of voice yields `row0`, whose totals satisfy the
invariant. -/
theorem C4_balance_invariant_witness :
    row0.total_cost_zar = row0.data_cost_zar + row0.voice_cost_zar ∧
    row0.running_balance_zar = -row0.total_cost_zar :=
  C4_balance_invariant [rec0] cb0 vs0 [] (by simp)
    (fun m b h => by simp [cb0] at h; omega)
    (fun m s h => by simp [vs0] at h; omega)
    row0 (by
      have he : update_crm_balances_from_cdr cb0 vs0 (process_crm_data_1 [rec0] []) =
          [row0] := by
        norm_num [update_crm_balances_from_cdr, process_crm_data_1, upsertOne,
          applyCdrUpdate, applyTotalUpdate, cb0, vs0, placeholderRow,
          data_cost_zar, voice_cost_zar, DATA_COST_PER_GB, VOICE_COST_PER_MIN,
          row0]
      rw [he]
      simp)

/-- A key absent from a keyed list is not found. -/
theorem assocLookup_eq_none {β : Type} (k : String × String) :
    ∀ l : List ((String × String) × β),
      k ∉ l.map Prod.fst → assocLookup k l = none := by
  intro l
  induction l with
  | nil => intro _; rfl
  | cons kv rest ih =>
    intro hk
    rw [List.map_cons, List.mem_cons, not_or] at hk
    rw [assocLookup, if_neg (fun he => hk.1 he.symm), ih hk.2]

/-- A key present in a keyed list is found. -/
theorem assocLookup_isSome_of_mem {β : Type} (k : String × String) :
    ∀ l : List ((String × String) × β),
      k ∈ l.map Prod.fst → ∃ v, assocLookup k l = some v := by
  intro l
  induction l with
  | nil => intro h; simp at h
  | cons kv rest ih =>
    intro hk
    by_cases he : kv.1 = k
    · exact ⟨kv.2, by rw [assocLookup, if_pos he]⟩
    · rw [List.map_cons, List.mem_cons] at hk
      rcases hk with hk | hk
      · exact absurd hk.symm he
      · obtain ⟨v, hv⟩ := ih hk
        exact ⟨v, by rw [assocLookup, if_neg he, hv]⟩

/-- Filtering a keyed list keeps the first hit of a key whose entry
survives the filter. -/
theorem assocLookup_filter {β : Type} (p : (String × String) × β → Bool)
    (k : String × String) :
    ∀ (l : List ((String × String) × β)) (d : β), assocLookup k l = some d →
      p (k, d) = true → assocLookup k (l.filter p) = some d := by
  intro l
  induction l with
  | nil => intro d h; simp [assocLookup] at h
  | cons kv rest ih =>
    intro d h hp
    rw [assocLookup] at h
    by_cases he : kv.1 = k
    · rw [if_pos he] at h
      have hkv : kv = (k, d) := by
        obtain ⟨k1, v1⟩ := kv
        simp only at he h
        rw [Option.some_inj] at h
        rw [he, h]
      rw [List.filter_cons, hkv, if_pos hp, assocLookup, if_pos rfl]
    · rw [if_neg he] at h
      rw [List.filter_cons]
      by_cases hpk : p kv = true
      · rw [if_pos hpk, assocLookup, if_neg he]
        exact ih d h hp
      · rw [if_neg hpk]
        exact ih d h hp

/-- Rows mapped from entries whose keys avoid `k` contribute nothing to
the `k`-filtered output. -/
theorem filter_key_map_nil {β : Type} (f : (String × String) × β → MergedRow)
    (hf : ∀ kv, (f kv).key = kv.1) (k : String × String) :
    ∀ l : List ((String × String) × β), k ∉ l.map Prod.fst →
      (l.map f).filter (fun r => r.key = k) = [] := by
  intro l
  induction l with
  | nil => intro _; rfl
  | cons kv rest ih =>
    intro hk
    rw [List.map_cons, List.mem_cons, not_or] at hk
    rw [List.map_cons, List.filter_cons, if_neg ?hne]
    case hne =>
      simp only [decide_eq_true_eq, hf]
      exact fun he => hk.1 he.symm
    exact ih hk.2

/-- On a uniquely-keyed list, the `k`-filtered mapped output is exactly
the image of the unique entry found for `k`. -/
theorem filter_key_map_singleton {β : Type} (f : (String × String) × β → MergedRow)
    (hf : ∀ kv, (f kv).key = kv.1) (k : String × String) :
    ∀ (l : List ((String × String) × β)) (v : β), (l.map Prod.fst).Nodup →
      assocLookup k l = some v →
      (l.map f).filter (fun r => r.key = k) = [f (k, v)] := by
  intro l
  induction l with
  | nil => intro v _ h; simp [assocLookup] at h
  | cons kv rest ih =>
    intro v hnd hl
    rw [assocLookup] at hl
    rw [List.map_cons, List.nodup_cons] at hnd
    by_cases he : kv.1 = k
    · rw [if_pos he] at hl
      have hkv : kv = (k, v) := by
        obtain ⟨k1, v1⟩ := kv
        simp only at he hl
        rw [Option.some_inj] at hl
        rw [he, hl]
      have hrest : k ∉ rest.map Prod.fst := by
        rw [← he]
        exact hnd.1
      rw [List.map_cons, List.filter_cons, if_pos ?hpe]
      case hpe => simp [hf, he]
      rw [filter_key_map_nil f hf k rest hrest, hkv]
    · rw [if_neg he] at hl
      rw [List.map_cons, List.filter_cons, if_neg ?hpn]
      case hpn =>
        simp only [decide_eq_true_eq, hf]
        exact he
      exact ih v hnd.2 hl

/-- C5: for every key present in either the voice-usage input or the
data-usage input (each input uniquely keyed, as grouped summaries are),
the outer merge produces exactly one output row for that key, carrying
the voice fields of its voice record and the data fields of its data
record, zero-filled on whichever side has no matching record — the merge
the repository's unit test `test_cdr_data_1_merge_and_columns` performs
with `pd.merge(..., how="outer").fillna(0)`. -/
theorem C5_outer_merge (voice : List ((String × String) × VoiceVals))
    (data : List ((String × String) × DataVals)) (k : String × String)
    (hv : (voice.map Prod.fst).Nodup) (hd : (data.map Prod.fst).Nodup)
    (hk : k ∈ voice.map Prod.fst ∨ k ∈ data.map Prod.fst) :
    (outerMerge voice data).filter (fun r => r.key = k) =
      [⟨k, (assocLookup k voice).getD zeroVoice,
          (assocLookup k data).getD zeroData⟩] := by
  rw [outerMerge, List.filter_append]
  by_cases hkv : k ∈ voice.map Prod.fst
  · obtain ⟨v, hlv⟩ := assocLookup_isSome_of_mem k voice hkv
    rw [filter_key_map_singleton _ (fun kv => rfl) k voice v hv hlv]
    rw [filter_key_map_nil _ (fun kv => rfl) k _ ?hnomem]
    case hnomem =>
      intro hmem
      obtain ⟨kd, hkd, hfst⟩ := List.mem_map.1 hmem
      have hp := List.of_mem_filter hkd
      rw [hfst, hlv] at hp
      simp at hp
    rw [hlv]
    simp
  · have hkd : k ∈ data.map Prod.fst := hk.resolve_left hkv
    have hlvn : assocLookup k voice = none := assocLookup_eq_none k voice hkv
    obtain ⟨d, hld⟩ := assocLookup_isSome_of_mem k data hkd
    rw [filter_key_map_nil _ (fun kv => rfl) k voice hkv]
    have hsub : ((data.filter fun kd => (assocLookup kd.1 voice).isNone).map
        Prod.fst).Nodup :=
      hd.sublist ((List.filter_sublist data).map Prod.fst)
    have hfl : assocLookup k (data.filter fun kd =>
        (assocLookup kd.1 voice).isNone) = some d := by
      refine assocLookup_filter _ k data d hld ?_
      simp [hlvn]
    rw [filter_key_map_singleton _ (fun kv => rfl) k _ d hsub hfl]
    rw [hlvn, hld]
    simp

/-- Witness for C5_outer_merge: the unit test's fixture — one voice
record (2 voice calls, 1 video call, 120 s) and one data record for the
same (datetime, msisdn) key — merges into exactly one row retaining both
sides' fields. -/
theorem C5_outer_merge_witness :
    (outerMerge [(("2025-12-07 12:00:00", "27820000001"), ⟨2, 1, 120⟩)]
        [(("2025-12-07 12:00:00", "27820000001"),
          ⟨1000, 800, 500, 400, 0, 0, 0, 0, 0, 0, 1500, 1200⟩)]).filter
      (fun r => r.key = ("2025-12-07 12:00:00", "27820000001")) =
      [⟨("2025-12-07 12:00:00", "27820000001"), ⟨2, 1, 120⟩,
        ⟨1000, 800, 500, 400, 0, 0, 0, 0, 0, 0, 1500, 1200⟩⟩] := by
  have h := C5_outer_merge
    [(("2025-12-07 12:00:00", "27820000001"), ⟨2, 1, 120⟩)]
    [(("2025-12-07 12:00:00", "27820000001"),
      ⟨1000, 800, 500, 400, 0, 0, 0, 0, 0, 0, 1500, 1200⟩)]
    ("2025-12-07 12:00:00", "27820000001")
    (by simp) (by simp) (by simp)
  rw [h]
  rfl

end DataEng
